import Mathlib

/-!
# SwissAirDry ESP32 gateway firmware: configuration store, admin API and main loop

A shallow embedding of `esp32/src/main.cpp` and `esp32/include/config.h`.

* `Config` is `struct Config` of `config.h`, field by field.
* `JsonVariant` is the in-memory ArduinoJson document the firmware works on.  The
  accessors the firmware calls (`containsKey`, `operator[]`, `operator|`,
  `as<T>()`) are given on that tree.  Text parsing and printing
  (`deserializeJson`, `serializeJson`) and the number parser behind
  `as<int>()` on a string belong to the ArduinoJson library, which is not part of
  the repository: they are the fields of the parameter `ArduinoJson`.
  The byte capacity of `StaticJsonDocument<1024>` is not represented; a parse that
  does not fit is one of the ways `deserializeJson` may answer with an error.
  Numbers are integers; JSON floats are not represented.  The conversions
  `as<String>()`, `as<int>()` and `as<bool>()` on a value of another type follow
  ArduinoJson 6 and 7; the statements below only use them on values of the right
  type.
* Text (`String`, file contents, request bodies) is a Lean `String`, one character
  per byte, so `File::size()` is `String.length`.
* `int` is a 32 bit signed integer and `unsigned long` a 32 bit unsigned one, as on
  the ESP32.
-/

namespace SwissAirDry

/-! ## Data model -/

/-- Configuration record, `struct Config` in `config.h`. -/
structure Config where
  deviceName : String
  deviceId : String
  deviceType : String
  wifiSsid : String
  wifiPassword : String
  apSsid : String
  apPassword : String
  mqttBroker : String
  mqttPort : Int
  mqttUsername : String
  mqttPassword : String
  mqttClientId : String
  mqttBaseTopic : String
  dhtPin : Int
  dhtType : String
  useBme280 : Bool
  energyMeterEnabled : Bool
  energyMeterRxPin : Int
  energyMeterTxPin : Int
  relayPin : Int
  hasSpeedControl : Bool
  speedControlPin : Int
  readInterval : Int
  reportingInterval : Int
  otaEnabled : Bool
  debugMode : Bool
deriving DecidableEq

/-- The global `Config config;` of `main.cpp` before anything is assigned to it:
an object of static storage duration whose `String` members are empty and whose
`int` and `bool` members are zero. -/
def bootConfig : Config where
  deviceName := ""
  deviceId := ""
  deviceType := ""
  wifiSsid := ""
  wifiPassword := ""
  apSsid := ""
  apPassword := ""
  mqttBroker := ""
  mqttPort := 0
  mqttUsername := ""
  mqttPassword := ""
  mqttClientId := ""
  mqttBaseTopic := ""
  dhtPin := 0
  dhtType := ""
  useBme280 := false
  energyMeterEnabled := false
  energyMeterRxPin := 0
  energyMeterTxPin := 0
  relayPin := 0
  hasSpeedControl := false
  speedControlPin := 0
  readInterval := 0
  reportingInterval := 0
  otaEnabled := false
  debugMode := false

/-- The right-hand operands of `|` in `loadConfiguration`, lines 89 to 119: the
hardcoded default of every field. -/
def defaultConfig : Config where
  deviceName := "SwissAirDry-Gateway"
  deviceId := "gateway001"
  deviceType := "esp32-gateway"
  wifiSsid := ""
  wifiPassword := ""
  apSsid := "SwissAirDry-Setup"
  apPassword := "setup1234"
  mqttBroker := "mqtt.swissairdry.com"
  mqttPort := 1883
  mqttUsername := ""
  mqttPassword := ""
  mqttClientId := "gateway001"
  mqttBaseTopic := "swissairdry/devices/gateway001"
  dhtPin := 4
  dhtType := "DHT22"
  useBme280 := false
  energyMeterEnabled := false
  energyMeterRxPin := 16
  energyMeterTxPin := 17
  relayPin := 5
  hasSpeedControl := false
  speedControlPin := 13
  readInterval := 60
  reportingInterval := 300
  otaEnabled := true
  debugMode := false

/-! ## The JSON document -/

/-- An ArduinoJson value as held in a `JsonDocument`. -/
inductive JsonVariant where
  | null
  | boolean (b : Bool)
  | integer (i : Int)
  | string (s : String)
  | array (items : List JsonVariant)
  | object (members : List (String × JsonVariant))

/-- The ArduinoJson entry points whose result depends on JSON text: they are library
code outside the repository and are taken as given. -/
structure ArduinoJson where
  /-- Result of `deserializeJson(doc, input)`: the document, or the error text. -/
  deserializeJson : String → Except String JsonVariant
  /-- Result of `serializeJson(doc, output)`: the text written. -/
  serializeJson : JsonVariant → String
  /-- Result of `parseNumber<int>`, used by `as<int>()` on a string value. -/
  parseNumber : String → Int

/-- Whether an integer fits the 32 bit `int` of the target. -/
def fitsInt (i : Int) : Bool :=
  decide (-2147483648 ≤ i) && decide (i ≤ 2147483647)

namespace JsonVariant

/-- Member test `v.containsKey(key)`: true when `v` is an object with that key. -/
def containsKey (v : JsonVariant) (key : String) : Bool :=
  match v with
  | object members => (members.lookup key).isSome
  | _ => false

/-- Member access `v[key]`: the member, or the null variant when `v` is not an
object or has no such key. -/
def getMember (v : JsonVariant) (key : String) : JsonVariant :=
  match v with
  | object members => (members.lookup key).getD null
  | _ => null

/-- Defaulting read `v | "text"`: the string held by `v`, else the default. -/
def orString (v : JsonVariant) (dflt : String) : String :=
  match v with
  | string s => s
  | _ => dflt

/-- Defaulting read `v | 1883`: the integer held by `v` when `v.is<int>()`, else the
default. -/
def orInt (v : JsonVariant) (dflt : Int) : Int :=
  match v with
  | integer i => if fitsInt i then i else dflt
  | _ => dflt

/-- Defaulting read `v | true`: the boolean held by `v`, else the default. -/
def orBool (v : JsonVariant) (dflt : Bool) : Bool :=
  match v with
  | boolean b => b
  | _ => dflt

/-- Conversion `v.as<String>()`: the string held by `v`; any other value is printed
as JSON. -/
def asString (lib : ArduinoJson) (v : JsonVariant) : String :=
  match v with
  | string s => s
  | other => lib.serializeJson other

/-- Conversion `v.as<int>()`. -/
def asInt (lib : ArduinoJson) (v : JsonVariant) : Int :=
  match v with
  | integer i => if fitsInt i then i else 0
  | boolean b => if b then 1 else 0
  | string s => lib.parseNumber s
  | _ => 0

/-- Conversion `v.as<bool>()`. -/
def asBool (v : JsonVariant) : Bool :=
  match v with
  | boolean b => b
  | integer i => decide (i ≠ 0)
  | null => false
  | _ => true

end JsonVariant

/-! ## Persistent storage -/

/-- What the firmware can observe of the SPIFFS file system. -/
structure Spiffs where
  /-- Result of `SPIFFS.begin()`. -/
  mounts : Bool
  /-- Content of `/config.json`, `none` when `SPIFFS.exists` is false. -/
  configFile : Option String
  /-- Whether `SPIFFS.open("/config.json", "r")` yields a usable file. -/
  opensForRead : Bool
  /-- Whether `SPIFFS.open("/config.json", "w")` yields a usable file. -/
  opensForWrite : Bool

/-! ## loadConfiguration -/

/-- Outcome of `loadConfiguration()`: the returned flag, the global `config`
afterwards, the lines printed on `Serial`, and whether `deserializeJson` was
called. -/
structure LoadResult where
  ok : Bool
  config : Config
  parseAttempted : Bool
  serial : List String

/-- Lines 88 to 119 of `loadConfiguration`: every field is assigned from the
document, with its default after `|`. -/
def configFromDocument (doc : JsonVariant) : Config where
  deviceName := ((doc.getMember "device").getMember "name").orString "SwissAirDry-Gateway"
  deviceId := ((doc.getMember "device").getMember "id").orString "gateway001"
  deviceType := ((doc.getMember "device").getMember "type").orString "esp32-gateway"
  wifiSsid := ((doc.getMember "wifi").getMember "ssid").orString ""
  wifiPassword := ((doc.getMember "wifi").getMember "password").orString ""
  apSsid := ((doc.getMember "wifi").getMember "ap_ssid").orString "SwissAirDry-Setup"
  apPassword := ((doc.getMember "wifi").getMember "ap_password").orString "setup1234"
  mqttBroker := ((doc.getMember "mqtt").getMember "broker").orString "mqtt.swissairdry.com"
  mqttPort := ((doc.getMember "mqtt").getMember "port").orInt 1883
  mqttUsername := ((doc.getMember "mqtt").getMember "username").orString ""
  mqttPassword := ((doc.getMember "mqtt").getMember "password").orString ""
  mqttClientId := ((doc.getMember "mqtt").getMember "client_id").orString "gateway001"
  mqttBaseTopic :=
    ((doc.getMember "mqtt").getMember "base_topic").orString "swissairdry/devices/gateway001"
  dhtPin := ((doc.getMember "sensors").getMember "dht_pin").orInt 4
  dhtType := ((doc.getMember "sensors").getMember "dht_type").orString "DHT22"
  useBme280 := ((doc.getMember "sensors").getMember "use_bme280").orBool false
  energyMeterEnabled := ((doc.getMember "sensors").getMember "energy_meter_enabled").orBool false
  energyMeterRxPin := ((doc.getMember "sensors").getMember "energy_meter_rx_pin").orInt 16
  energyMeterTxPin := ((doc.getMember "sensors").getMember "energy_meter_tx_pin").orInt 17
  relayPin := ((doc.getMember "control").getMember "relay_pin").orInt 5
  hasSpeedControl := ((doc.getMember "control").getMember "has_speed_control").orBool false
  speedControlPin := ((doc.getMember "control").getMember "speed_control_pin").orInt 13
  readInterval := ((doc.getMember "system").getMember "read_interval").orInt 60
  reportingInterval := ((doc.getMember "system").getMember "reporting_interval").orInt 300
  otaEnabled := ((doc.getMember "system").getMember "ota_enabled").orBool true
  debugMode := ((doc.getMember "system").getMember "debug_mode").orBool false

/-- The function `loadConfiguration()` of `main.cpp`, lines 50 to 123, as a function
of the storage and of the global `config` it runs on. -/
def loadConfiguration (lib : ArduinoJson) (fs : Spiffs) (config : Config) : LoadResult :=
  if !fs.mounts then
    ⟨false, config, false,
      ["SPIFFS konnte nicht initialisiert werden. Verwendung der Standardkonfiguration."]⟩
  else
    match fs.configFile with
    | none =>
      ⟨false, config, false,
        ["Konfigurationsdatei nicht gefunden. Verwendung der Standardkonfiguration."]⟩
    | some content =>
      if !fs.opensForRead then
        ⟨false, config, false,
          ["Konfigurationsdatei konnte nicht geöffnet werden. Verwendung der Standardkonfiguration."]⟩
      else if content.length > 1024 then
        ⟨false, config, false,
          ["Konfigurationsdatei ist zu groß. Verwendung der Standardkonfiguration."]⟩
      else
        match lib.deserializeJson content with
        | .error e =>
          ⟨false, config, true, ["Fehler beim Parsen der Konfigurationsdatei: " ++ e]⟩
        | .ok doc =>
          ⟨true, configFromDocument doc, true, ["Konfiguration erfolgreich geladen."]⟩

/-! ## GET /api/config -/

/-- An HTTP answer passed to `request->send`. -/
structure HttpResponse where
  code : Nat
  contentType : String
  body : String
deriving DecidableEq

/-- The document built by the `GET /api/config` handler, lines 141 to 179. -/
def getConfigDocument (config : Config) : JsonVariant :=
  .object [
    ("device", .object [
      ("name", .string config.deviceName),
      ("id", .string config.deviceId),
      ("type", .string config.deviceType)]),
    ("wifi", .object [
      ("ssid", .string config.wifiSsid),
      ("password", .string ""),
      ("ap_ssid", .string config.apSsid),
      ("ap_password", .string "")]),
    ("mqtt", .object [
      ("broker", .string config.mqttBroker),
      ("port", .integer config.mqttPort),
      ("username", .string config.mqttUsername),
      ("password", .string ""),
      ("client_id", .string config.mqttClientId),
      ("base_topic", .string config.mqttBaseTopic)]),
    ("sensors", .object [
      ("dht_pin", .integer config.dhtPin),
      ("dht_type", .string config.dhtType),
      ("use_bme280", .boolean config.useBme280),
      ("energy_meter_enabled", .boolean config.energyMeterEnabled),
      ("energy_meter_rx_pin", .integer config.energyMeterRxPin),
      ("energy_meter_tx_pin", .integer config.energyMeterTxPin)]),
    ("control", .object [
      ("relay_pin", .integer config.relayPin),
      ("has_speed_control", .boolean config.hasSpeedControl),
      ("speed_control_pin", .integer config.speedControlPin)]),
    ("system", .object [
      ("read_interval", .integer config.readInterval),
      ("reporting_interval", .integer config.reportingInterval),
      ("ota_enabled", .boolean config.otaEnabled),
      ("debug_mode", .boolean config.debugMode)])]

/-- The `GET /api/config` handler, lines 140 to 184. -/
def getConfig (lib : ArduinoJson) (config : Config) : HttpResponse :=
  ⟨200, "application/json", lib.serializeJson (getConfigDocument config)⟩

/-! ## POST /api/config -/

/-- Lines 202 to 206: the `device` section of the update. -/
def mergeDevice (lib : ArduinoJson) (doc : JsonVariant) (config : Config) : Config :=
  if doc.containsKey "device" then
    let sec := doc.getMember "device"
    let config :=
      if sec.containsKey "name" then
        { config with deviceName := (sec.getMember "name").asString lib } else config
    let config :=
      if sec.containsKey "id" then
        { config with deviceId := (sec.getMember "id").asString lib } else config
    let config :=
      if sec.containsKey "type" then
        { config with deviceType := (sec.getMember "type").asString lib } else config
    config
  else config

/-- Lines 208 to 215: the `wifi` section of the update. -/
def mergeWifi (lib : ArduinoJson) (doc : JsonVariant) (config : Config) : Config :=
  if doc.containsKey "wifi" then
    let sec := doc.getMember "wifi"
    let config :=
      if sec.containsKey "ssid" then
        { config with wifiSsid := (sec.getMember "ssid").asString lib } else config
    let config :=
      if sec.containsKey "password" && (sec.getMember "password").asString lib != "" then
        { config with wifiPassword := (sec.getMember "password").asString lib } else config
    let config :=
      if sec.containsKey "ap_ssid" then
        { config with apSsid := (sec.getMember "ap_ssid").asString lib } else config
    let config :=
      if sec.containsKey "ap_password" && (sec.getMember "ap_password").asString lib != "" then
        { config with apPassword := (sec.getMember "ap_password").asString lib } else config
    config
  else config

/-- Lines 217 to 225: the `mqtt` section of the update. -/
def mergeMqtt (lib : ArduinoJson) (doc : JsonVariant) (config : Config) : Config :=
  if doc.containsKey "mqtt" then
    let sec := doc.getMember "mqtt"
    let config :=
      if sec.containsKey "broker" then
        { config with mqttBroker := (sec.getMember "broker").asString lib } else config
    let config :=
      if sec.containsKey "port" then
        { config with mqttPort := (sec.getMember "port").asInt lib } else config
    let config :=
      if sec.containsKey "username" then
        { config with mqttUsername := (sec.getMember "username").asString lib } else config
    let config :=
      if sec.containsKey "password" && (sec.getMember "password").asString lib != "" then
        { config with mqttPassword := (sec.getMember "password").asString lib } else config
    let config :=
      if sec.containsKey "client_id" then
        { config with mqttClientId := (sec.getMember "client_id").asString lib } else config
    let config :=
      if sec.containsKey "base_topic" then
        { config with mqttBaseTopic := (sec.getMember "base_topic").asString lib } else config
    config
  else config

/-- Lines 227 to 234: the `sensors` section of the update. -/
def mergeSensors (lib : ArduinoJson) (doc : JsonVariant) (config : Config) : Config :=
  if doc.containsKey "sensors" then
    let sec := doc.getMember "sensors"
    let config :=
      if sec.containsKey "dht_pin" then
        { config with dhtPin := (sec.getMember "dht_pin").asInt lib } else config
    let config :=
      if sec.containsKey "dht_type" then
        { config with dhtType := (sec.getMember "dht_type").asString lib } else config
    let config :=
      if sec.containsKey "use_bme280" then
        { config with useBme280 := (sec.getMember "use_bme280").asBool } else config
    let config :=
      if sec.containsKey "energy_meter_enabled" then
        { config with energyMeterEnabled := (sec.getMember "energy_meter_enabled").asBool }
      else config
    let config :=
      if sec.containsKey "energy_meter_rx_pin" then
        { config with energyMeterRxPin := (sec.getMember "energy_meter_rx_pin").asInt lib }
      else config
    let config :=
      if sec.containsKey "energy_meter_tx_pin" then
        { config with energyMeterTxPin := (sec.getMember "energy_meter_tx_pin").asInt lib }
      else config
    config
  else config

/-- Lines 236 to 240: the `control` section of the update. -/
def mergeControl (lib : ArduinoJson) (doc : JsonVariant) (config : Config) : Config :=
  if doc.containsKey "control" then
    let sec := doc.getMember "control"
    let config :=
      if sec.containsKey "relay_pin" then
        { config with relayPin := (sec.getMember "relay_pin").asInt lib } else config
    let config :=
      if sec.containsKey "has_speed_control" then
        { config with hasSpeedControl := (sec.getMember "has_speed_control").asBool } else config
    let config :=
      if sec.containsKey "speed_control_pin" then
        { config with speedControlPin := (sec.getMember "speed_control_pin").asInt lib }
      else config
    config
  else config

/-- Lines 242 to 247: the `system` section of the update. -/
def mergeSystem (lib : ArduinoJson) (doc : JsonVariant) (config : Config) : Config :=
  if doc.containsKey "system" then
    let sec := doc.getMember "system"
    let config :=
      if sec.containsKey "read_interval" then
        { config with readInterval := (sec.getMember "read_interval").asInt lib } else config
    let config :=
      if sec.containsKey "reporting_interval" then
        { config with reportingInterval := (sec.getMember "reporting_interval").asInt lib }
      else config
    let config :=
      if sec.containsKey "ota_enabled" then
        { config with otaEnabled := (sec.getMember "ota_enabled").asBool } else config
    let config :=
      if sec.containsKey "debug_mode" then
        { config with debugMode := (sec.getMember "debug_mode").asBool } else config
    config
  else config

/-- Lines 201 to 247 of the body handler: the update of the global `config` from the
parsed request document, section after section. -/
def mergeDocument (lib : ArduinoJson) (doc : JsonVariant) (config : Config) : Config :=
  mergeSystem lib doc (mergeControl lib doc (mergeSensors lib doc
    (mergeMqtt lib doc (mergeWifi lib doc (mergeDevice lib doc config)))))

/-- What one run of the `POST /api/config` body handler leaves behind: the global
`config`, the file system, whether `ESP.restart()` was reached, and the lines
printed on `Serial`. The handler is a `void` lambda: it returns nothing. -/
structure PostOutcome where
  config : Config
  fs : Spiffs
  restarted : Bool
  serial : List String

/-- The body handler of `POST /api/config`, lines 190 to 265, run on the request
bytes `data`. -/
def postConfigBody (lib : ArduinoJson) (fs : Spiffs) (config : Config) (data : String) :
    PostOutcome :=
  match lib.deserializeJson data with
  | .error e =>
    ⟨config, fs, false, ["Fehler beim Parsen der Konfigurationsdaten: " ++ e]⟩
  | .ok doc =>
    let config := mergeDocument lib doc config
    if !fs.opensForWrite then
      ⟨config, fs, false, ["Fehler beim Öffnen der Konfigurationsdatei zum Schreiben."]⟩
    else
      ⟨config, { fs with configFile := some (lib.serializeJson doc) }, true,
        ["Konfiguration erfolgreich aktualisiert."]⟩

/-- The request handler of `POST /api/config`, lines 187 to 190: it answers without
looking at the body or at the outcome of the body handler. -/
def postConfigRequest : HttpResponse :=
  ⟨200, "text/plain", "Konfiguration wird aktualisiert..."⟩

/-! ## The timer part of loop() -/

/-- Conversion of a C integer to the 32 bit `unsigned long`. -/
def toUnsignedLong (n : Int) : Nat :=
  (n % 4294967296).toNat

/-- The two timers `lastReadTime` and `lastReportTime`, lines 44 and 45. -/
structure Timers where
  lastReadTime : Nat
  lastReportTime : Nat
deriving DecidableEq

/-- What one pass through lines 428 to 456 of `loop()` does: the timers afterwards,
the reading taken by `readSensorData()` if any, the reading handed to
`publishData` if any, and the lines printed on `Serial`. -/
structure LoopOutcome where
  timers : Timers
  reading : Option JsonVariant
  published : Option JsonVariant
  serial : List String

/-- Lines 428 to 456 of `loop()`. `currentMillis` is the value of `millis()`,
`connected` the value of `mqttClient.isConnected()`, `sensorData` the value
`sensorManager.readSensorData()` returns when it is called. -/
def loopStep (lib : ArduinoJson) (config : Config) (connected : Bool) (sensorData : JsonVariant)
    (currentMillis : Nat) (t : Timers) : LoopOutcome :=
  if toUnsignedLong ((currentMillis : Int) - t.lastReadTime)
      ≥ toUnsignedLong (config.readInterval * 1000) then
    let debug :=
      if config.debugMode then ["Sensordaten: " ++ lib.serializeJson sensorData] else []
    if toUnsignedLong ((currentMillis : Int) - t.lastReportTime)
        ≥ toUnsignedLong (config.reportingInterval * 1000) then
      if connected then
        ⟨⟨currentMillis, currentMillis⟩, some sensorData, some sensorData, debug⟩
      else
        ⟨⟨currentMillis, currentMillis⟩, some sensorData, none,
          "MQTT nicht verbunden, Daten können nicht gesendet werden" :: debug⟩
    else
      ⟨⟨currentMillis, t.lastReportTime⟩, some sensorData, none, debug⟩
  else
    ⟨t, none, none, []⟩

/-! ## Vocabulary of the statements -/

/-- The value a document holds at `section.key`, `none` when the section or the key
is missing (the two `containsKey` tests of the body handler). -/
def fieldOf (doc : JsonVariant) (sec key : String) : Option JsonVariant :=
  if doc.containsKey sec && (doc.getMember sec).containsKey key then
    some ((doc.getMember sec).getMember key)
  else none

/-- The three kinds of scalar a configuration field holds. -/
inductive Kind where
  | text
  | number
  | flag
deriving DecidableEq

/-- The 26 members of `struct Config`. -/
inductive Field where
  | deviceName
  | deviceId
  | deviceType
  | wifiSsid
  | wifiPassword
  | apSsid
  | apPassword
  | mqttBroker
  | mqttPort
  | mqttUsername
  | mqttPassword
  | mqttClientId
  | mqttBaseTopic
  | dhtPin
  | dhtType
  | useBme280
  | energyMeterEnabled
  | energyMeterRxPin
  | energyMeterTxPin
  | relayPin
  | hasSpeedControl
  | speedControlPin
  | readInterval
  | reportingInterval
  | otaEnabled
  | debugMode
deriving DecidableEq

namespace Field

/-- The top-level key under which the firmware reads and writes a field. -/
def group : Field → String
  | deviceName => "device"
  | deviceId => "device"
  | deviceType => "device"
  | wifiSsid => "wifi"
  | wifiPassword => "wifi"
  | apSsid => "wifi"
  | apPassword => "wifi"
  | mqttBroker => "mqtt"
  | mqttPort => "mqtt"
  | mqttUsername => "mqtt"
  | mqttPassword => "mqtt"
  | mqttClientId => "mqtt"
  | mqttBaseTopic => "mqtt"
  | dhtPin => "sensors"
  | dhtType => "sensors"
  | useBme280 => "sensors"
  | energyMeterEnabled => "sensors"
  | energyMeterRxPin => "sensors"
  | energyMeterTxPin => "sensors"
  | relayPin => "control"
  | hasSpeedControl => "control"
  | speedControlPin => "control"
  | readInterval => "system"
  | reportingInterval => "system"
  | otaEnabled => "system"
  | debugMode => "system"

/-- The key of a field inside its section. -/
def key : Field → String
  | deviceName => "name"
  | deviceId => "id"
  | deviceType => "type"
  | wifiSsid => "ssid"
  | wifiPassword => "password"
  | apSsid => "ap_ssid"
  | apPassword => "ap_password"
  | mqttBroker => "broker"
  | mqttPort => "port"
  | mqttUsername => "username"
  | mqttPassword => "password"
  | mqttClientId => "client_id"
  | mqttBaseTopic => "base_topic"
  | dhtPin => "dht_pin"
  | dhtType => "dht_type"
  | useBme280 => "use_bme280"
  | energyMeterEnabled => "energy_meter_enabled"
  | energyMeterRxPin => "energy_meter_rx_pin"
  | energyMeterTxPin => "energy_meter_tx_pin"
  | relayPin => "relay_pin"
  | hasSpeedControl => "has_speed_control"
  | speedControlPin => "speed_control_pin"
  | readInterval => "read_interval"
  | reportingInterval => "reporting_interval"
  | otaEnabled => "ota_enabled"
  | debugMode => "debug_mode"

/-- The C++ type of a field: `String`, `int` or `bool`. -/
def kind : Field → Kind
  | deviceName => .text
  | deviceId => .text
  | deviceType => .text
  | wifiSsid => .text
  | wifiPassword => .text
  | apSsid => .text
  | apPassword => .text
  | mqttBroker => .text
  | mqttPort => .number
  | mqttUsername => .text
  | mqttPassword => .text
  | mqttClientId => .text
  | mqttBaseTopic => .text
  | dhtPin => .number
  | dhtType => .text
  | useBme280 => .flag
  | energyMeterEnabled => .flag
  | energyMeterRxPin => .number
  | energyMeterTxPin => .number
  | relayPin => .number
  | hasSpeedControl => .flag
  | speedControlPin => .number
  | readInterval => .number
  | reportingInterval => .number
  | otaEnabled => .flag
  | debugMode => .flag

/-- The fields the firmware treats as secrets: the three passwords. -/
def isSecret : Field → Bool
  | wifiPassword => true
  | apPassword => true
  | mqttPassword => true
  | _ => false

/-- The value of a field of a configuration, as a JSON scalar of its kind. -/
def read : Field → Config → JsonVariant
  | deviceName, c => .string c.deviceName
  | deviceId, c => .string c.deviceId
  | deviceType, c => .string c.deviceType
  | wifiSsid, c => .string c.wifiSsid
  | wifiPassword, c => .string c.wifiPassword
  | apSsid, c => .string c.apSsid
  | apPassword, c => .string c.apPassword
  | mqttBroker, c => .string c.mqttBroker
  | mqttPort, c => .integer c.mqttPort
  | mqttUsername, c => .string c.mqttUsername
  | mqttPassword, c => .string c.mqttPassword
  | mqttClientId, c => .string c.mqttClientId
  | mqttBaseTopic, c => .string c.mqttBaseTopic
  | dhtPin, c => .integer c.dhtPin
  | dhtType, c => .string c.dhtType
  | useBme280, c => .boolean c.useBme280
  | energyMeterEnabled, c => .boolean c.energyMeterEnabled
  | energyMeterRxPin, c => .integer c.energyMeterRxPin
  | energyMeterTxPin, c => .integer c.energyMeterTxPin
  | relayPin, c => .integer c.relayPin
  | hasSpeedControl, c => .boolean c.hasSpeedControl
  | speedControlPin, c => .integer c.speedControlPin
  | readInterval, c => .integer c.readInterval
  | reportingInterval, c => .integer c.reportingInterval
  | otaEnabled, c => .boolean c.otaEnabled
  | debugMode, c => .boolean c.debugMode

end Field

/-- Whether a JSON value has the type a field of the given kind expects: a string, an
integer that fits `int`, or a boolean. -/
def JsonVariant.hasKind : JsonVariant → Kind → Bool
  | .string _, .text => true
  | .integer i, .number => fitsInt i
  | .boolean _, .flag => true
  | _, _ => false

/-- Whether the `int` members of a configuration hold values of the 32 bit `int` of the
target, as every value of the C++ struct does. -/
def Config.intsFit (c : Config) : Bool :=
  fitsInt c.mqttPort && fitsInt c.dhtPin && fitsInt c.energyMeterRxPin
    && fitsInt c.energyMeterTxPin && fitsInt c.relayPin && fitsInt c.speedControlPin
    && fitsInt c.readInterval && fitsInt c.reportingInterval

/-- A storage state in which `/config.json` holds `text` and every SPIFFS call
succeeds. -/
def storageWith (text : String) : Spiffs :=
  ⟨true, some text, true, true⟩

/-- A storage state without `/config.json` in which every other SPIFFS call
succeeds. -/
def storageEmpty : Spiffs :=
  ⟨true, none, true, true⟩

/-- One `POST /api/config` request: what the body handler leaves behind, and the
answer the request handler passes to `request->send`. -/
def postConfig (lib : ArduinoJson) (fs : Spiffs) (config : Config) (data : String) :
    PostOutcome × HttpResponse :=
  (postConfigBody lib fs config data, postConfigRequest)

/-! ## Concrete documents and configurations for the examples -/

/-- The update `{"system":{"read_interval":30}}`. -/
def intervalDocument : JsonVariant :=
  .object [("system", .object [("read_interval", .integer 30)])]

/-- The text of `intervalDocument`. -/
def intervalText : String :=
  "\x7b\"system\":\x7b\"read_interval\":30\x7d\x7d"

/-- The update `{"wifi":{"ssid":"","password":""}}`. -/
def blankWifiDocument : JsonVariant :=
  .object [("wifi", .object [("ssid", .string ""), ("password", .string "")])]

/-- The text of `blankWifiDocument`. -/
def blankWifiText : String :=
  "\x7b\"wifi\":\x7b\"ssid\":\"\",\"password\":\"\"\x7d\x7d"

/-- ArduinoJson on the few texts and documents used in the examples: the two updates
above and the empty object; every other text is rejected. -/
def sampleJson : ArduinoJson where
  deserializeJson text :=
    if text = intervalText then .ok intervalDocument
    else if text = blankWifiText then .ok blankWifiDocument
    else if text = "\x7b\x7d" then .ok (.object [])
    else .error "InvalidInput"
  serializeJson doc :=
    match doc with
    | .object [("system", .object [("read_interval", .integer 30)])] => intervalText
    | .object [("wifi", .object [("ssid", .string ""), ("password", .string "")])] =>
      blankWifiText
    | .object [] => "\x7b\x7d"
    | _ => "null"
  parseNumber _ := 0

/-- A configuration in use that differs from the defaults. -/
def sampleConfig : Config :=
  { defaultConfig with
    wifiSsid := "Werkstatt", wifiPassword := "geheim", mqttPort := 8883, readInterval := 60 }

/-- The configuration `sampleConfig` with three other secrets. -/
def sampleConfigOtherSecrets : Config :=
  { sampleConfig with wifiPassword := "anders", apPassword := "", mqttPassword := "broker-pw" }

/-- A file content of 1025 bytes. -/
def oversizedText : String :=
  String.mk (List.replicate 1025 'x')

mutual
/-- Compact JSON text of a value; strings are printed between quotes, without
escapes. -/
def renderJson : JsonVariant → String
  | .null => "null"
  | .boolean b => if b then "true" else "false"
  | .integer i => toString i
  | .string s => "\"" ++ s ++ "\""
  | .array items => "[" ++ renderItems items ++ "]"
  | .object members => "\x7b" ++ renderMembers members ++ "\x7d"
/-- Compact JSON text of the items of an array, separated by commas. -/
def renderItems : List JsonVariant → String
  | [] => ""
  | [v] => renderJson v
  | v :: rest => renderJson v ++ "," ++ renderItems rest
/-- Compact JSON text of the members of an object, separated by commas. -/
def renderMembers : List (String × JsonVariant) → String
  | [] => ""
  | [(k, v)] => "\"" ++ k ++ "\":" ++ renderJson v
  | (k, v) :: rest => "\"" ++ k ++ "\":" ++ renderJson v ++ "," ++ renderMembers rest
end

/-- ArduinoJson on the answer of `GET /api/config` for `sampleConfig`: documents are
printed by `renderJson`, and the one text that is read back is that answer. -/
def responseJson : ArduinoJson where
  deserializeJson text :=
    if text = renderJson (getConfigDocument sampleConfig) then
      .ok (getConfigDocument sampleConfig)
    else .error "InvalidInput"
  serializeJson := renderJson
  parseNumber _ := 0

/-! ## Lemmas on the document accessors -/

theorem getMember_of_not_containsKey (v : JsonVariant) (k : String)
    (h : v.containsKey k = false) : v.getMember k = .null := by
  cases v with
  | object members =>
    simp only [JsonVariant.containsKey] at h
    simp only [JsonVariant.getMember]
    cases hl : members.lookup k with
    | none => rfl
    | some w => rw [hl] at h; cases h
  | _ => rfl

theorem getMember_null (k : String) : JsonVariant.null.getMember k = .null := rfl

theorem fieldOf_some (d : JsonVariant) (g k : String) (v : JsonVariant)
    (h : fieldOf d g k = some v) :
    d.containsKey g = true ∧ (d.getMember g).containsKey k = true
      ∧ (d.getMember g).getMember k = v := by
  unfold fieldOf at h
  split at h
  · rename_i hc
    simp only [Bool.and_eq_true] at hc
    exact ⟨hc.1, hc.2, by simpa using h⟩
  · cases h

theorem fieldOf_none (d : JsonVariant) (g k : String) (h : fieldOf d g k = none) :
    (d.containsKey g && (d.getMember g).containsKey k) = false
      ∧ (d.getMember g).getMember k = .null := by
  unfold fieldOf at h
  split at h
  · cases h
  · rename_i hc
    simp only [Bool.not_eq_true] at hc
    refine ⟨hc, ?_⟩
    cases hg : d.containsKey g
    · rw [getMember_of_not_containsKey d g hg]; rfl
    · rw [hg] at hc
      exact getMember_of_not_containsKey _ _ (by simpa using hc)

theorem fieldOf_of_not_containsKey (d : JsonVariant) (g k : String)
    (h : d.containsKey g = false) : fieldOf d g k = none := by
  simp [fieldOf, h]

/-! ## The merge, field by field -/

theorem mergeDocument_deviceName (lib : ArduinoJson) (d : JsonVariant) (s : Config) :
    (mergeDocument lib d s).deviceName =
      if d.containsKey "device" && (d.getMember "device").containsKey "name" then
        ((d.getMember "device").getMember "name").asString lib else s.deviceName := by
  simp only [mergeDocument, mergeSystem, mergeControl, mergeSensors, mergeMqtt, mergeWifi,
    mergeDevice]
  simp only [apply_ite Config.deviceName, ite_self]
  split_ifs <;> simp_all

theorem mergeDocument_deviceId (lib : ArduinoJson) (d : JsonVariant) (s : Config) :
    (mergeDocument lib d s).deviceId =
      if d.containsKey "device" && (d.getMember "device").containsKey "id" then
        ((d.getMember "device").getMember "id").asString lib else s.deviceId := by
  simp only [mergeDocument, mergeSystem, mergeControl, mergeSensors, mergeMqtt, mergeWifi,
    mergeDevice]
  simp only [apply_ite Config.deviceId, ite_self]
  split_ifs <;> simp_all

theorem mergeDocument_deviceType (lib : ArduinoJson) (d : JsonVariant) (s : Config) :
    (mergeDocument lib d s).deviceType =
      if d.containsKey "device" && (d.getMember "device").containsKey "type" then
        ((d.getMember "device").getMember "type").asString lib else s.deviceType := by
  simp only [mergeDocument, mergeSystem, mergeControl, mergeSensors, mergeMqtt, mergeWifi,
    mergeDevice]
  simp only [apply_ite Config.deviceType, ite_self]
  split_ifs <;> simp_all

theorem mergeDocument_wifiSsid (lib : ArduinoJson) (d : JsonVariant) (s : Config) :
    (mergeDocument lib d s).wifiSsid =
      if d.containsKey "wifi" && (d.getMember "wifi").containsKey "ssid" then
        ((d.getMember "wifi").getMember "ssid").asString lib else s.wifiSsid := by
  simp only [mergeDocument, mergeSystem, mergeControl, mergeSensors, mergeMqtt, mergeWifi,
    mergeDevice]
  simp only [apply_ite Config.wifiSsid, ite_self]
  split_ifs <;> simp_all

theorem mergeDocument_wifiPassword (lib : ArduinoJson) (d : JsonVariant) (s : Config) :
    (mergeDocument lib d s).wifiPassword =
      if d.containsKey "wifi" && (d.getMember "wifi").containsKey "password"
          && ((d.getMember "wifi").getMember "password").asString lib != "" then
        ((d.getMember "wifi").getMember "password").asString lib else s.wifiPassword := by
  simp only [mergeDocument, mergeSystem, mergeControl, mergeSensors, mergeMqtt, mergeWifi,
    mergeDevice]
  simp only [apply_ite Config.wifiPassword, ite_self]
  split_ifs <;> simp_all

theorem mergeDocument_apSsid (lib : ArduinoJson) (d : JsonVariant) (s : Config) :
    (mergeDocument lib d s).apSsid =
      if d.containsKey "wifi" && (d.getMember "wifi").containsKey "ap_ssid" then
        ((d.getMember "wifi").getMember "ap_ssid").asString lib else s.apSsid := by
  simp only [mergeDocument, mergeSystem, mergeControl, mergeSensors, mergeMqtt, mergeWifi,
    mergeDevice]
  simp only [apply_ite Config.apSsid, ite_self]
  split_ifs <;> simp_all

theorem mergeDocument_apPassword (lib : ArduinoJson) (d : JsonVariant) (s : Config) :
    (mergeDocument lib d s).apPassword =
      if d.containsKey "wifi" && (d.getMember "wifi").containsKey "ap_password"
          && ((d.getMember "wifi").getMember "ap_password").asString lib != "" then
        ((d.getMember "wifi").getMember "ap_password").asString lib else s.apPassword := by
  simp only [mergeDocument, mergeSystem, mergeControl, mergeSensors, mergeMqtt, mergeWifi,
    mergeDevice]
  simp only [apply_ite Config.apPassword, ite_self]
  split_ifs <;> simp_all

theorem mergeDocument_mqttBroker (lib : ArduinoJson) (d : JsonVariant) (s : Config) :
    (mergeDocument lib d s).mqttBroker =
      if d.containsKey "mqtt" && (d.getMember "mqtt").containsKey "broker" then
        ((d.getMember "mqtt").getMember "broker").asString lib else s.mqttBroker := by
  simp only [mergeDocument, mergeSystem, mergeControl, mergeSensors, mergeMqtt, mergeWifi,
    mergeDevice]
  simp only [apply_ite Config.mqttBroker, ite_self]
  split_ifs <;> simp_all

theorem mergeDocument_mqttPort (lib : ArduinoJson) (d : JsonVariant) (s : Config) :
    (mergeDocument lib d s).mqttPort =
      if d.containsKey "mqtt" && (d.getMember "mqtt").containsKey "port" then
        ((d.getMember "mqtt").getMember "port").asInt lib else s.mqttPort := by
  simp only [mergeDocument, mergeSystem, mergeControl, mergeSensors, mergeMqtt, mergeWifi,
    mergeDevice]
  simp only [apply_ite Config.mqttPort, ite_self]
  split_ifs <;> simp_all

theorem mergeDocument_mqttUsername (lib : ArduinoJson) (d : JsonVariant) (s : Config) :
    (mergeDocument lib d s).mqttUsername =
      if d.containsKey "mqtt" && (d.getMember "mqtt").containsKey "username" then
        ((d.getMember "mqtt").getMember "username").asString lib else s.mqttUsername := by
  simp only [mergeDocument, mergeSystem, mergeControl, mergeSensors, mergeMqtt, mergeWifi,
    mergeDevice]
  simp only [apply_ite Config.mqttUsername, ite_self]
  split_ifs <;> simp_all

theorem mergeDocument_mqttPassword (lib : ArduinoJson) (d : JsonVariant) (s : Config) :
    (mergeDocument lib d s).mqttPassword =
      if d.containsKey "mqtt" && (d.getMember "mqtt").containsKey "password"
          && ((d.getMember "mqtt").getMember "password").asString lib != "" then
        ((d.getMember "mqtt").getMember "password").asString lib else s.mqttPassword := by
  simp only [mergeDocument, mergeSystem, mergeControl, mergeSensors, mergeMqtt, mergeWifi,
    mergeDevice]
  simp only [apply_ite Config.mqttPassword, ite_self]
  split_ifs <;> simp_all

theorem mergeDocument_mqttClientId (lib : ArduinoJson) (d : JsonVariant) (s : Config) :
    (mergeDocument lib d s).mqttClientId =
      if d.containsKey "mqtt" && (d.getMember "mqtt").containsKey "client_id" then
        ((d.getMember "mqtt").getMember "client_id").asString lib else s.mqttClientId := by
  simp only [mergeDocument, mergeSystem, mergeControl, mergeSensors, mergeMqtt, mergeWifi,
    mergeDevice]
  simp only [apply_ite Config.mqttClientId, ite_self]
  split_ifs <;> simp_all

theorem mergeDocument_mqttBaseTopic (lib : ArduinoJson) (d : JsonVariant) (s : Config) :
    (mergeDocument lib d s).mqttBaseTopic =
      if d.containsKey "mqtt" && (d.getMember "mqtt").containsKey "base_topic" then
        ((d.getMember "mqtt").getMember "base_topic").asString lib else s.mqttBaseTopic := by
  simp only [mergeDocument, mergeSystem, mergeControl, mergeSensors, mergeMqtt, mergeWifi,
    mergeDevice]
  simp only [apply_ite Config.mqttBaseTopic, ite_self]
  split_ifs <;> simp_all

theorem mergeDocument_dhtPin (lib : ArduinoJson) (d : JsonVariant) (s : Config) :
    (mergeDocument lib d s).dhtPin =
      if d.containsKey "sensors" && (d.getMember "sensors").containsKey "dht_pin" then
        ((d.getMember "sensors").getMember "dht_pin").asInt lib else s.dhtPin := by
  simp only [mergeDocument, mergeSystem, mergeControl, mergeSensors, mergeMqtt, mergeWifi,
    mergeDevice]
  simp only [apply_ite Config.dhtPin, ite_self]
  split_ifs <;> simp_all

theorem mergeDocument_dhtType (lib : ArduinoJson) (d : JsonVariant) (s : Config) :
    (mergeDocument lib d s).dhtType =
      if d.containsKey "sensors" && (d.getMember "sensors").containsKey "dht_type" then
        ((d.getMember "sensors").getMember "dht_type").asString lib else s.dhtType := by
  simp only [mergeDocument, mergeSystem, mergeControl, mergeSensors, mergeMqtt, mergeWifi,
    mergeDevice]
  simp only [apply_ite Config.dhtType, ite_self]
  split_ifs <;> simp_all

theorem mergeDocument_useBme280 (lib : ArduinoJson) (d : JsonVariant) (s : Config) :
    (mergeDocument lib d s).useBme280 =
      if d.containsKey "sensors" && (d.getMember "sensors").containsKey "use_bme280" then
        ((d.getMember "sensors").getMember "use_bme280").asBool else s.useBme280 := by
  simp only [mergeDocument, mergeSystem, mergeControl, mergeSensors, mergeMqtt, mergeWifi,
    mergeDevice]
  simp only [apply_ite Config.useBme280, ite_self]
  split_ifs <;> simp_all

theorem mergeDocument_energyMeterEnabled (lib : ArduinoJson) (d : JsonVariant) (s : Config) :
    (mergeDocument lib d s).energyMeterEnabled =
      if d.containsKey "sensors" && (d.getMember "sensors").containsKey "energy_meter_enabled" then
        ((d.getMember "sensors").getMember "energy_meter_enabled").asBool else s.energyMeterEnabled := by
  simp only [mergeDocument, mergeSystem, mergeControl, mergeSensors, mergeMqtt, mergeWifi,
    mergeDevice]
  simp only [apply_ite Config.energyMeterEnabled, ite_self]
  split_ifs <;> simp_all

theorem mergeDocument_energyMeterRxPin (lib : ArduinoJson) (d : JsonVariant) (s : Config) :
    (mergeDocument lib d s).energyMeterRxPin =
      if d.containsKey "sensors" && (d.getMember "sensors").containsKey "energy_meter_rx_pin" then
        ((d.getMember "sensors").getMember "energy_meter_rx_pin").asInt lib else s.energyMeterRxPin := by
  simp only [mergeDocument, mergeSystem, mergeControl, mergeSensors, mergeMqtt, mergeWifi,
    mergeDevice]
  simp only [apply_ite Config.energyMeterRxPin, ite_self]
  split_ifs <;> simp_all

theorem mergeDocument_energyMeterTxPin (lib : ArduinoJson) (d : JsonVariant) (s : Config) :
    (mergeDocument lib d s).energyMeterTxPin =
      if d.containsKey "sensors" && (d.getMember "sensors").containsKey "energy_meter_tx_pin" then
        ((d.getMember "sensors").getMember "energy_meter_tx_pin").asInt lib else s.energyMeterTxPin := by
  simp only [mergeDocument, mergeSystem, mergeControl, mergeSensors, mergeMqtt, mergeWifi,
    mergeDevice]
  simp only [apply_ite Config.energyMeterTxPin, ite_self]
  split_ifs <;> simp_all

theorem mergeDocument_relayPin (lib : ArduinoJson) (d : JsonVariant) (s : Config) :
    (mergeDocument lib d s).relayPin =
      if d.containsKey "control" && (d.getMember "control").containsKey "relay_pin" then
        ((d.getMember "control").getMember "relay_pin").asInt lib else s.relayPin := by
  simp only [mergeDocument, mergeSystem, mergeControl, mergeSensors, mergeMqtt, mergeWifi,
    mergeDevice]
  simp only [apply_ite Config.relayPin, ite_self]
  split_ifs <;> simp_all

theorem mergeDocument_hasSpeedControl (lib : ArduinoJson) (d : JsonVariant) (s : Config) :
    (mergeDocument lib d s).hasSpeedControl =
      if d.containsKey "control" && (d.getMember "control").containsKey "has_speed_control" then
        ((d.getMember "control").getMember "has_speed_control").asBool else s.hasSpeedControl := by
  simp only [mergeDocument, mergeSystem, mergeControl, mergeSensors, mergeMqtt, mergeWifi,
    mergeDevice]
  simp only [apply_ite Config.hasSpeedControl, ite_self]
  split_ifs <;> simp_all

theorem mergeDocument_speedControlPin (lib : ArduinoJson) (d : JsonVariant) (s : Config) :
    (mergeDocument lib d s).speedControlPin =
      if d.containsKey "control" && (d.getMember "control").containsKey "speed_control_pin" then
        ((d.getMember "control").getMember "speed_control_pin").asInt lib else s.speedControlPin := by
  simp only [mergeDocument, mergeSystem, mergeControl, mergeSensors, mergeMqtt, mergeWifi,
    mergeDevice]
  simp only [apply_ite Config.speedControlPin, ite_self]
  split_ifs <;> simp_all

theorem mergeDocument_readInterval (lib : ArduinoJson) (d : JsonVariant) (s : Config) :
    (mergeDocument lib d s).readInterval =
      if d.containsKey "system" && (d.getMember "system").containsKey "read_interval" then
        ((d.getMember "system").getMember "read_interval").asInt lib else s.readInterval := by
  simp only [mergeDocument, mergeSystem, mergeControl, mergeSensors, mergeMqtt, mergeWifi,
    mergeDevice]
  simp only [apply_ite Config.readInterval, ite_self]
  split_ifs <;> simp_all

theorem mergeDocument_reportingInterval (lib : ArduinoJson) (d : JsonVariant) (s : Config) :
    (mergeDocument lib d s).reportingInterval =
      if d.containsKey "system" && (d.getMember "system").containsKey "reporting_interval" then
        ((d.getMember "system").getMember "reporting_interval").asInt lib else s.reportingInterval := by
  simp only [mergeDocument, mergeSystem, mergeControl, mergeSensors, mergeMqtt, mergeWifi,
    mergeDevice]
  simp only [apply_ite Config.reportingInterval, ite_self]
  split_ifs <;> simp_all

theorem mergeDocument_otaEnabled (lib : ArduinoJson) (d : JsonVariant) (s : Config) :
    (mergeDocument lib d s).otaEnabled =
      if d.containsKey "system" && (d.getMember "system").containsKey "ota_enabled" then
        ((d.getMember "system").getMember "ota_enabled").asBool else s.otaEnabled := by
  simp only [mergeDocument, mergeSystem, mergeControl, mergeSensors, mergeMqtt, mergeWifi,
    mergeDevice]
  simp only [apply_ite Config.otaEnabled, ite_self]
  split_ifs <;> simp_all

theorem mergeDocument_debugMode (lib : ArduinoJson) (d : JsonVariant) (s : Config) :
    (mergeDocument lib d s).debugMode =
      if d.containsKey "system" && (d.getMember "system").containsKey "debug_mode" then
        ((d.getMember "system").getMember "debug_mode").asBool else s.debugMode := by
  simp only [mergeDocument, mergeSystem, mergeControl, mergeSensors, mergeMqtt, mergeWifi,
    mergeDevice]
  simp only [apply_ite Config.debugMode, ite_self]
  split_ifs <;> simp_all

/-! ## Shared lemmas on the handlers -/

theorem mergeDocument_absent (lib : ArduinoJson) (s : Config) (d : JsonVariant) (f : Field)
    (h : fieldOf d f.group f.key = none) :
    f.read (mergeDocument lib d s) = f.read s := by
  have h1 := (fieldOf_none d f.group f.key h).1
  cases f <;> simp only [Field.group, Field.key] at h1 <;>
    simp [Field.read, mergeDocument_deviceName, mergeDocument_deviceId,
      mergeDocument_deviceType, mergeDocument_wifiSsid, mergeDocument_wifiPassword,
      mergeDocument_apSsid, mergeDocument_apPassword, mergeDocument_mqttBroker,
      mergeDocument_mqttPort, mergeDocument_mqttUsername, mergeDocument_mqttPassword,
      mergeDocument_mqttClientId, mergeDocument_mqttBaseTopic, mergeDocument_dhtPin,
      mergeDocument_dhtType, mergeDocument_useBme280, mergeDocument_energyMeterEnabled,
      mergeDocument_energyMeterRxPin, mergeDocument_energyMeterTxPin,
      mergeDocument_relayPin, mergeDocument_hasSpeedControl,
      mergeDocument_speedControlPin, mergeDocument_readInterval,
      mergeDocument_reportingInterval, mergeDocument_otaEnabled,
      mergeDocument_debugMode, h1]

theorem mergeDocument_secret (lib : ArduinoJson) (s : Config) (d : JsonVariant) (f : Field)
    (v : String) (hs : f.isSecret = true) (h : fieldOf d f.group f.key = some (.string v)) :
    f.read (mergeDocument lib d s) = if v = "" then f.read s else .string v := by
  obtain ⟨h1, h2, h3⟩ := fieldOf_some d _ _ _ h
  cases f <;> try (exact absurd hs (by decide))
  all_goals
    simp only [Field.group, Field.key] at h1 h2 h3
    by_cases hv : v = "" <;>
      simp [Field.read, mergeDocument_wifiPassword, mergeDocument_apPassword,
        mergeDocument_mqttPassword, h1, h2, h3, JsonVariant.asString, hv]

theorem loadConfiguration_ok (lib : ArduinoJson) (fs : Spiffs) (c : Config) (text : String)
    (d : JsonVariant) (hmount : fs.mounts = true) (hfile : fs.configFile = some text)
    (hread : fs.opensForRead = true) (hsize : text.length ≤ 1024)
    (hparse : lib.deserializeJson text = .ok d) :
    loadConfiguration lib fs c
      = ⟨true, configFromDocument d, true, ["Konfiguration erfolgreich geladen."]⟩ := by
  simp [loadConfiguration, hmount, hfile, hread, Nat.not_lt.mpr hsize, hparse]

theorem configFromDocument_present (d : JsonVariant) (f : Field) (v : JsonVariant)
    (h : fieldOf d f.group f.key = some v) (hk : v.hasKind f.kind = true) :
    f.read (configFromDocument d) = v := by
  obtain ⟨-, -, h3⟩ := fieldOf_some d _ _ _ h
  cases f <;> simp only [Field.group, Field.key] at h3 <;>
    simp only [Field.read, configFromDocument, h3] <;>
    cases v <;> simp_all [JsonVariant.hasKind, Field.kind, JsonVariant.orString,
      JsonVariant.orInt, JsonVariant.orBool]

theorem configFromDocument_absent (d : JsonVariant) (f : Field)
    (h : fieldOf d f.group f.key = none) :
    f.read (configFromDocument d) = f.read defaultConfig := by
  have h3 := (fieldOf_none d _ _ h).2
  cases f <;> simp only [Field.group, Field.key] at h3 <;>
    simp only [Field.read, configFromDocument, h3] <;> rfl

theorem configFromDocument_empty : configFromDocument (.object []) = defaultConfig := by
  rfl

theorem postConfigBody_ok (lib : ArduinoJson) (fs : Spiffs) (s : Config) (data : String)
    (d : JsonVariant) (hparse : lib.deserializeJson data = .ok d)
    (hwrite : fs.opensForWrite = true) :
    postConfigBody lib fs s data
      = ⟨mergeDocument lib d s, { fs with configFile := some (lib.serializeJson d) }, true,
          ["Konfiguration erfolgreich aktualisiert."]⟩ := by
  simp [postConfigBody, hparse, hwrite]

theorem reload_eq (lib : ArduinoJson) (fs : Spiffs) (s c₀ : Config) (data : String)
    (d : JsonVariant) (hparse : lib.deserializeJson data = .ok d)
    (hmount : fs.mounts = true) (hread : fs.opensForRead = true)
    (hwrite : fs.opensForWrite = true) (hsize : (lib.serializeJson d).length ≤ 1024)
    (hround : lib.deserializeJson (lib.serializeJson d) = .ok d) :
    loadConfiguration lib (postConfigBody lib fs s data).fs c₀
      = ⟨true, configFromDocument d, true, ["Konfiguration erfolgreich geladen."]⟩ := by
  rw [postConfigBody_ok lib fs s data d hparse hwrite]
  exact loadConfiguration_ok lib { fs with configFile := some (lib.serializeJson d) } c₀
    (lib.serializeJson d) d hmount rfl hread hsize hround

theorem oversizedText_length : oversizedText.length = 1025 := by
  show (List.replicate 1025 'x').length = 1025
  exact List.length_replicate 1025 'x'

theorem mergeDocument_getConfigDocument (lib : ArduinoJson) (s : Config)
    (h : s.intsFit = true) : mergeDocument lib (getConfigDocument s) s = s := by
  rcases s with ⟨a1, a2, a3, a4, a5, a6, a7, a8, a9, a10, a11, a12, a13, a14, a15, a16, a17,
    a18, a19, a20, a21, a22, a23, a24, a25, a26⟩
  simp only [Config.intsFit, Bool.and_eq_true] at h
  obtain ⟨⟨⟨⟨⟨⟨⟨h1, h2⟩, h3⟩, h4⟩, h5⟩, h6⟩, h7⟩, h8⟩ := h
  simp [mergeDocument, mergeSystem, mergeControl, mergeSensors, mergeMqtt, mergeWifi,
    mergeDevice, getConfigDocument, JsonVariant.containsKey, JsonVariant.getMember,
    List.lookup, JsonVariant.asString, JsonVariant.asInt, JsonVariant.asBool,
    h1, h2, h3, h4, h5, h6, h7, h8]

theorem responseJson_reads_back :
    responseJson.deserializeJson (responseJson.serializeJson (getConfigDocument sampleConfig))
      = .ok (getConfigDocument sampleConfig) := by
  simp [responseJson]

/-! ## Claims -/

/-- Claim C1, the round trip of the write path, as the code behaves. After a
`POST /api/config` with a body that parses to `d` on working storage, and a following
`loadConfiguration()` on the persisted file: the load succeeds; every non-secret
field that `d` supplies with the right type holds the value of `d`; but a secret
field for which `d` supplied the empty string, which the merge left at its prior
value in memory, is the empty string after the load, not the value it had before the
update. The file written is the request document, not the merged configuration. -/
theorem reload_after_post_blanks_secret (lib : ArduinoJson) (fs : Spiffs) (s c₀ : Config)
    (data : String) (d : JsonVariant) (hparse : lib.deserializeJson data = .ok d)
    (hmount : fs.mounts = true) (hread : fs.opensForRead = true)
    (hwrite : fs.opensForWrite = true) (hsize : (lib.serializeJson d).length ≤ 1024)
    (hround : lib.deserializeJson (lib.serializeJson d) = .ok d) :
    (loadConfiguration lib (postConfigBody lib fs s data).fs c₀).ok = true
    ∧ (∀ (f : Field) (v : JsonVariant), f.isSecret = false →
        fieldOf d f.group f.key = some v → v.hasKind f.kind = true →
        f.read (loadConfiguration lib (postConfigBody lib fs s data).fs c₀).config = v)
    ∧ (∀ f : Field, f.isSecret = true → fieldOf d f.group f.key = some (.string "") →
        f.read (postConfigBody lib fs s data).config = f.read s
        ∧ f.read (loadConfiguration lib (postConfigBody lib fs s data).fs c₀).config
            = .string "") := by
  rw [reload_eq lib fs s c₀ data d hparse hmount hread hwrite hsize hround,
    postConfigBody_ok lib fs s data d hparse hwrite]
  refine ⟨rfl, ?_, ?_⟩
  · intro f v _ h hk
    exact configFromDocument_present d f v h hk
  · intro f hs h
    refine ⟨?_, configFromDocument_present d f _ h ?_⟩
    · simpa using mergeDocument_secret lib s d f "" hs h
    · cases f <;> first | rfl | exact absurd hs (by decide)

/-- Instance of `reload_after_post_blanks_secret`: with the WiFi password `geheim` in use
and the body `{"wifi":{"ssid":"","password":""}}`, the password is still `geheim` in
memory after the request and empty after the reload. -/
theorem reload_after_post_blanks_secret_witness :
    sampleJson.deserializeJson blankWifiText = .ok blankWifiDocument
    ∧ (storageWith intervalText).opensForWrite = true
    ∧ (sampleJson.serializeJson blankWifiDocument).length ≤ 1024
    ∧ sampleJson.deserializeJson (sampleJson.serializeJson blankWifiDocument)
        = .ok blankWifiDocument
    ∧ fieldOf blankWifiDocument "wifi" "password" = some (.string "")
    ∧ Field.wifiPassword.read sampleConfig = .string "geheim"
    ∧ Field.wifiPassword.read
        (postConfigBody sampleJson (storageWith intervalText) sampleConfig blankWifiText).config
        = .string "geheim"
    ∧ Field.wifiPassword.read
        (loadConfiguration sampleJson
          (postConfigBody sampleJson (storageWith intervalText) sampleConfig blankWifiText).fs
          bootConfig).config = .string "" :=
  ⟨rfl, rfl, by decide, rfl, rfl, rfl,
    ((reload_after_post_blanks_secret sampleJson (storageWith intervalText) sampleConfig bootConfig
      blankWifiText blankWifiDocument rfl rfl rfl rfl (by decide) rfl).2.2
        .wifiPassword rfl rfl).1,
    ((reload_after_post_blanks_secret sampleJson (storageWith intervalText) sampleConfig bootConfig
      blankWifiText blankWifiDocument rfl rfl rfl rfl (by decide) rfl).2.2
        .wifiPassword rfl rfl).2⟩

/-- Claim C2, what the body handler persists, as the code behaves. For a body that
parses to `d` on working storage the file written to `/config.json` is the text of
the request document `d` alone; reloading it gives the configuration read from `d`,
so that a field not named in `d`, which the merge left unchanged in memory, comes
back as its hardcoded default and not as the value it had before. -/
theorem post_persists_request_only (lib : ArduinoJson) (fs : Spiffs) (s c₀ : Config)
    (data : String) (d : JsonVariant) (hparse : lib.deserializeJson data = .ok d)
    (hmount : fs.mounts = true) (hread : fs.opensForRead = true)
    (hwrite : fs.opensForWrite = true) (hsize : (lib.serializeJson d).length ≤ 1024)
    (hround : lib.deserializeJson (lib.serializeJson d) = .ok d) :
    (postConfigBody lib fs s data).fs.configFile = some (lib.serializeJson d)
    ∧ (loadConfiguration lib (postConfigBody lib fs s data).fs c₀).config
        = configFromDocument d
    ∧ (∀ f : Field, fieldOf d f.group f.key = none →
        f.read (postConfigBody lib fs s data).config = f.read s
        ∧ f.read (loadConfiguration lib (postConfigBody lib fs s data).fs c₀).config
            = f.read defaultConfig) := by
  rw [reload_eq lib fs s c₀ data d hparse hmount hread hwrite hsize hround,
    postConfigBody_ok lib fs s data d hparse hwrite]
  refine ⟨rfl, rfl, ?_⟩
  intro f h
  exact ⟨mergeDocument_absent lib s d f h, configFromDocument_absent d f h⟩

/-- Instance of `post_persists_request_only`: with MQTT port 8883 in use and the body
`{"system":{"read_interval":30}}`, the file holds exactly that body, the port is
still 8883 in memory and 1883 after the reload. -/
theorem post_persists_request_only_witness :
    sampleJson.deserializeJson intervalText = .ok intervalDocument
    ∧ (storageWith "\x7b\x7d").mounts = true
    ∧ (storageWith "\x7b\x7d").opensForRead = true
    ∧ (storageWith "\x7b\x7d").opensForWrite = true
    ∧ (sampleJson.serializeJson intervalDocument).length ≤ 1024
    ∧ sampleJson.deserializeJson (sampleJson.serializeJson intervalDocument)
        = .ok intervalDocument
    ∧ fieldOf intervalDocument "mqtt" "port" = none
    ∧ Field.mqttPort.read sampleConfig = .integer 8883
    ∧ (postConfigBody sampleJson (storageWith "\x7b\x7d") sampleConfig intervalText).fs.configFile
        = some intervalText
    ∧ Field.mqttPort.read
        (postConfigBody sampleJson (storageWith "\x7b\x7d") sampleConfig intervalText).config
        = .integer 8883
    ∧ Field.mqttPort.read
        (loadConfiguration sampleJson
          (postConfigBody sampleJson (storageWith "\x7b\x7d") sampleConfig intervalText).fs
          bootConfig).config = .integer 1883 :=
  ⟨rfl, rfl, rfl, rfl, by decide, rfl, rfl, rfl,
    (post_persists_request_only sampleJson (storageWith "\x7b\x7d") sampleConfig bootConfig
      intervalText intervalDocument rfl rfl rfl rfl (by decide) rfl).1,
    ((post_persists_request_only sampleJson (storageWith "\x7b\x7d") sampleConfig bootConfig
      intervalText intervalDocument rfl rfl rfl rfl (by decide) rfl).2.2 .mqttPort rfl).1,
    ((post_persists_request_only sampleJson (storageWith "\x7b\x7d") sampleConfig bootConfig
      intervalText intervalDocument rfl rfl rfl rfl (by decide) rfl).2.2 .mqttPort rfl).2⟩

/-- Claim C3, `loadConfiguration()` on failure, as the code behaves. When SPIFFS does
not mount, `/config.json` is absent or cannot be opened, the file is larger than
1024 bytes or its content does not parse, the function returns false and leaves the
global configuration exactly as it was; an oversized file is rejected without a call
of `deserializeJson`, and a file of exactly 1024 bytes passes the size check and is
parsed. At boot without a file the configuration therefore stays the zero-initialised
global (empty device name, port 0, intervals 0, OTA off): it is not the default
configuration. -/
theorem load_failure_keeps_config (lib : ArduinoJson) :
    (∀ (fs : Spiffs) (c : Config),
        (fs.mounts = false ∨ fs.configFile = none ∨ fs.opensForRead = false
          ∨ ∃ text, fs.configFile = some text
              ∧ (text.length > 1024 ∨ ∃ e, lib.deserializeJson text = .error e)) →
        (loadConfiguration lib fs c).ok = false ∧ (loadConfiguration lib fs c).config = c)
    ∧ (∀ (fs : Spiffs) (c : Config) (text : String), fs.configFile = some text →
        text.length > 1024 → (loadConfiguration lib fs c).parseAttempted = false)
    ∧ (∀ (c : Config) (text : String), text.length = 1024 →
        (loadConfiguration lib (storageWith text) c).parseAttempted = true)
    ∧ (loadConfiguration lib storageEmpty bootConfig).ok = false
    ∧ (loadConfiguration lib storageEmpty bootConfig).config.deviceName = ""
    ∧ (loadConfiguration lib storageEmpty bootConfig).config.mqttPort = 0
    ∧ (loadConfiguration lib storageEmpty bootConfig).config.readInterval = 0
    ∧ (loadConfiguration lib storageEmpty bootConfig).config.reportingInterval = 0
    ∧ (loadConfiguration lib storageEmpty bootConfig).config.otaEnabled = false
    ∧ (loadConfiguration lib storageEmpty bootConfig).config ≠ defaultConfig := by
  refine ⟨?_, ?_, ?_, rfl, rfl, rfl, rfl, rfl, rfl, ?_⟩
  · intro fs c h
    unfold loadConfiguration
    rcases h with h | h | h | ⟨text, hf, h | ⟨e, he⟩⟩
    · simp [h]
    · cases hm : fs.mounts <;> simp [h]
    · cases hm : fs.mounts <;> cases hf : fs.configFile <;> simp [h]
    · cases hm : fs.mounts <;> cases hr : fs.opensForRead <;> simp [hf, h]
    · cases hm : fs.mounts <;> cases hr : fs.opensForRead <;> simp [hf, he]
      split_ifs <;> simp
  · intro fs c text hf h
    unfold loadConfiguration
    cases hm : fs.mounts <;> cases hr : fs.opensForRead <;> simp [hf, h]
  · intro c text h
    unfold loadConfiguration
    cases hp : lib.deserializeJson text <;> simp [storageWith, h, hp]
  · show bootConfig ≠ defaultConfig
    decide

/-- Instance of `load_failure_keeps_config`: a file of 1025 bytes at boot. -/
theorem load_failure_keeps_config_witness :
    (storageWith oversizedText).configFile = some oversizedText
    ∧ oversizedText.length > 1024
    ∧ (loadConfiguration sampleJson (storageWith oversizedText) bootConfig).ok = false
    ∧ (loadConfiguration sampleJson (storageWith oversizedText) bootConfig).config = bootConfig
    ∧ (loadConfiguration sampleJson (storageWith oversizedText) bootConfig).parseAttempted
        = false :=
  ⟨rfl, by rw [oversizedText_length]; decide,
    ((load_failure_keeps_config sampleJson).1 (storageWith oversizedText) bootConfig
      (Or.inr (Or.inr (Or.inr ⟨oversizedText, rfl,
        Or.inl (by rw [oversizedText_length]; decide)⟩)))).1,
    ((load_failure_keeps_config sampleJson).1 (storageWith oversizedText) bootConfig
      (Or.inr (Or.inr (Or.inr ⟨oversizedText, rfl,
        Or.inl (by rw [oversizedText_length]; decide)⟩)))).2,
    (load_failure_keeps_config sampleJson).2.1 (storageWith oversizedText) bootConfig
      oversizedText rfl (by rw [oversizedText_length]; decide)⟩

/-- Claim C4, frame property of the partial merge. After the body handler has merged
a document `d` into the configuration `s`, every field whose section and key are
absent from `d` has the value it had in `s`; in particular a document lacking a whole
section leaves the fields of that section unchanged, and the empty object leaves all
26 fields unchanged. -/
theorem merge_frame (lib : ArduinoJson) (s : Config) (d : JsonVariant) :
    (∀ f : Field, fieldOf d f.group f.key = none →
        f.read (mergeDocument lib d s) = f.read s)
    ∧ (∀ f : Field, d.containsKey f.group = false →
        f.read (mergeDocument lib d s) = f.read s)
    ∧ mergeDocument lib (.object []) s = s := by
  refine ⟨mergeDocument_absent lib s d,
    fun f h => mergeDocument_absent lib s d f (fieldOf_of_not_containsKey d _ _ h), ?_⟩
  simp [mergeDocument, mergeSystem, mergeControl, mergeSensors, mergeMqtt, mergeWifi,
    mergeDevice, JsonVariant.containsKey]

/-- Instance of `merge_frame`: the update `{"system":{"read_interval":30}}` leaves the
MQTT port alone, and the empty object leaves everything alone. -/
theorem merge_frame_witness :
    fieldOf intervalDocument "mqtt" "port" = none
    ∧ Field.mqttPort.read (mergeDocument sampleJson intervalDocument sampleConfig)
        = Field.mqttPort.read sampleConfig
    ∧ mergeDocument sampleJson (.object []) sampleConfig = sampleConfig :=
  ⟨rfl, (merge_frame sampleJson sampleConfig intervalDocument).1 .mqttPort rfl,
    (merge_frame sampleJson sampleConfig intervalDocument).2.2⟩

/-- Claim C5, secrets are never echoed. Two configurations that agree on every
non-secret field get the same `GET /api/config` response. Every response has status
200 and as its body the JSON text of the document `getConfigDocument`, in which the
keys `wifi.password`, `wifi.ap_password` and `mqtt.password` hold the empty string
and every other key holds the current value of its field. Whenever the library reads
its own text of that document back, the body of the response parses to a document
with exactly these key values. -/
theorem getConfig_hides_secrets (lib : ArduinoJson) :
    (∀ s₁ s₂ : Config, (∀ f : Field, f.isSecret = false → f.read s₁ = f.read s₂) →
        getConfig lib s₁ = getConfig lib s₂)
    ∧ (∀ s : Config,
        getConfig lib s = ⟨200, "application/json", lib.serializeJson (getConfigDocument s)⟩)
    ∧ (∀ (s : Config) (f : Field), f.isSecret = true →
        fieldOf (getConfigDocument s) f.group f.key = some (.string ""))
    ∧ (∀ (s : Config) (f : Field), f.isSecret = false →
        fieldOf (getConfigDocument s) f.group f.key = some (f.read s))
    ∧ (∀ s : Config,
        lib.deserializeJson (lib.serializeJson (getConfigDocument s))
          = .ok (getConfigDocument s) →
        ∃ d : JsonVariant, lib.deserializeJson (getConfig lib s).body = .ok d
          ∧ (∀ f : Field, f.isSecret = true →
              fieldOf d f.group f.key = some (.string ""))
          ∧ (∀ f : Field, f.isSecret = false →
              fieldOf d f.group f.key = some (f.read s))) := by
  refine ⟨?_, fun s => rfl, ?_, ?_, ?_⟩
  · intro s₁ s₂ h
    have e1 : s₁.deviceName = s₂.deviceName := by simpa [Field.read] using h .deviceName rfl
    have e2 : s₁.deviceId = s₂.deviceId := by simpa [Field.read] using h .deviceId rfl
    have e3 : s₁.deviceType = s₂.deviceType := by simpa [Field.read] using h .deviceType rfl
    have e4 : s₁.wifiSsid = s₂.wifiSsid := by simpa [Field.read] using h .wifiSsid rfl
    have e5 : s₁.apSsid = s₂.apSsid := by simpa [Field.read] using h .apSsid rfl
    have e6 : s₁.mqttBroker = s₂.mqttBroker := by simpa [Field.read] using h .mqttBroker rfl
    have e7 : s₁.mqttPort = s₂.mqttPort := by simpa [Field.read] using h .mqttPort rfl
    have e8 : s₁.mqttUsername = s₂.mqttUsername := by simpa [Field.read] using h .mqttUsername rfl
    have e9 : s₁.mqttClientId = s₂.mqttClientId := by simpa [Field.read] using h .mqttClientId rfl
    have e10 : s₁.mqttBaseTopic = s₂.mqttBaseTopic := by simpa [Field.read] using h .mqttBaseTopic rfl
    have e11 : s₁.dhtPin = s₂.dhtPin := by simpa [Field.read] using h .dhtPin rfl
    have e12 : s₁.dhtType = s₂.dhtType := by simpa [Field.read] using h .dhtType rfl
    have e13 : s₁.useBme280 = s₂.useBme280 := by simpa [Field.read] using h .useBme280 rfl
    have e14 : s₁.energyMeterEnabled = s₂.energyMeterEnabled := by simpa [Field.read] using h .energyMeterEnabled rfl
    have e15 : s₁.energyMeterRxPin = s₂.energyMeterRxPin := by simpa [Field.read] using h .energyMeterRxPin rfl
    have e16 : s₁.energyMeterTxPin = s₂.energyMeterTxPin := by simpa [Field.read] using h .energyMeterTxPin rfl
    have e17 : s₁.relayPin = s₂.relayPin := by simpa [Field.read] using h .relayPin rfl
    have e18 : s₁.hasSpeedControl = s₂.hasSpeedControl := by simpa [Field.read] using h .hasSpeedControl rfl
    have e19 : s₁.speedControlPin = s₂.speedControlPin := by simpa [Field.read] using h .speedControlPin rfl
    have e20 : s₁.readInterval = s₂.readInterval := by simpa [Field.read] using h .readInterval rfl
    have e21 : s₁.reportingInterval = s₂.reportingInterval := by simpa [Field.read] using h .reportingInterval rfl
    have e22 : s₁.otaEnabled = s₂.otaEnabled := by simpa [Field.read] using h .otaEnabled rfl
    have e23 : s₁.debugMode = s₂.debugMode := by simpa [Field.read] using h .debugMode rfl
    simp only [getConfig, getConfigDocument, e1, e2, e3, e4, e5, e6, e7, e8, e9, e10, e11,
      e12, e13, e14, e15, e16, e17, e18, e19, e20, e21, e22, e23]
  · intro s f h
    cases f <;> first | rfl | exact absurd h (by decide)
  · intro s f h
    cases f <;> first | rfl | exact absurd h (by decide)
  · intro s hround
    refine ⟨getConfigDocument s, hround, ?_, ?_⟩
    · intro f h
      cases f <;> first | rfl | exact absurd h (by decide)
    · intro f h
      cases f <;> first | rfl | exact absurd h (by decide)

/-- Instance of `getConfig_hides_secrets`: two configurations with different secrets
get the same answer, an answer that changes with a non-secret field and whose body
parses to a document with an empty `wifi.password` and the SSID in use. -/
theorem getConfig_hides_secrets_witness :
    (∀ f : Field, f.isSecret = false →
        f.read sampleConfig = f.read sampleConfigOtherSecrets)
    ∧ sampleConfig ≠ sampleConfigOtherSecrets
    ∧ getConfig responseJson sampleConfig = getConfig responseJson sampleConfigOtherSecrets
    ∧ getConfig responseJson sampleConfig ≠ getConfig responseJson defaultConfig
    ∧ responseJson.deserializeJson (responseJson.serializeJson (getConfigDocument sampleConfig))
        = .ok (getConfigDocument sampleConfig)
    ∧ (∃ d : JsonVariant,
        responseJson.deserializeJson (getConfig responseJson sampleConfig).body = .ok d
        ∧ fieldOf d "wifi" "password" = some (.string "")
        ∧ fieldOf d "wifi" "ssid" = some (.string "Werkstatt")) :=
  ⟨fun f h => by cases f <;> first | rfl | exact absurd h (by decide), by decide,
    (getConfig_hides_secrets responseJson).1 sampleConfig sampleConfigOtherSecrets
      (fun f h => by cases f <;> first | rfl | exact absurd h (by decide)),
    by decide, responseJson_reads_back,
    ((getConfig_hides_secrets responseJson).2.2.2.2 sampleConfig responseJson_reads_back).elim
      (fun d hd => ⟨d, hd.1, hd.2.1 .wifiPassword rfl, hd.2.2 .wifiSsid rfl⟩)⟩

/-- Claim C6 as amended: the body handler of `POST /api/config` reaches
`ESP.restart()` exactly when the body parses and `/config.json` opens for writing. -/
theorem postConfig_restart_iff (lib : ArduinoJson) (fs : Spiffs) (s : Config) (data : String) :
    (postConfigBody lib fs s data).restarted = true ↔
      (∃ d, lib.deserializeJson data = .ok d) ∧ fs.opensForWrite = true := by
  unfold postConfigBody
  cases hp : lib.deserializeJson data with
  | error e => simp
  | ok d => cases hw : fs.opensForWrite <;> simp [hw]

/-- Claim C6 as stated fails: neither a corrupt body nor a well-formed body on storage
that cannot be opened for writing ends in a restart. -/
theorem postConfig_not_always_restart :
    (postConfigBody sampleJson (storageWith intervalText) sampleConfig "\x7b").restarted = false
    ∧ (postConfigBody sampleJson ⟨true, none, true, false⟩ sampleConfig intervalText).restarted
        = false := by
  constructor <;> rfl

/-- Claim C8, per-field defaulting on load. When SPIFFS mounts, `/config.json` exists,
opens, is at most 1024 bytes long and parses to `d`, `loadConfiguration()` returns
true; every field whose key is present in `d` with the right type holds the value of
`d`, every field whose key or whole section is absent holds its hardcoded default,
and the empty object yields exactly the default configuration. -/
theorem load_defaults_per_field (lib : ArduinoJson) (fs : Spiffs) (c : Config) (text : String)
    (d : JsonVariant) (hmount : fs.mounts = true) (hfile : fs.configFile = some text)
    (hread : fs.opensForRead = true) (hsize : text.length ≤ 1024)
    (hparse : lib.deserializeJson text = .ok d) :
    (loadConfiguration lib fs c).ok = true
    ∧ (∀ (f : Field) (v : JsonVariant), fieldOf d f.group f.key = some v →
        v.hasKind f.kind = true → f.read (loadConfiguration lib fs c).config = v)
    ∧ (∀ f : Field, fieldOf d f.group f.key = none →
        f.read (loadConfiguration lib fs c).config = f.read defaultConfig)
    ∧ (∀ f : Field, d.containsKey f.group = false →
        f.read (loadConfiguration lib fs c).config = f.read defaultConfig)
    ∧ (d = .object [] → (loadConfiguration lib fs c).config = defaultConfig) := by
  rw [loadConfiguration_ok lib fs c text d hmount hfile hread hsize hparse]
  refine ⟨rfl, ?_, ?_, ?_, ?_⟩
  · intro f v h hk
    exact configFromDocument_present d f v h hk
  · intro f h
    exact configFromDocument_absent d f h
  · intro f h
    exact configFromDocument_absent d f (fieldOf_of_not_containsKey d _ _ h)
  · intro h
    subst h
    exact configFromDocument_empty

/-- Instance of `load_defaults_per_field`: loading `{}`. -/
theorem load_defaults_per_field_witness :
    (storageWith "\x7b\x7d").mounts = true
    ∧ (storageWith "\x7b\x7d").configFile = some "\x7b\x7d"
    ∧ (storageWith "\x7b\x7d").opensForRead = true
    ∧ "\x7b\x7d".length ≤ 1024
    ∧ sampleJson.deserializeJson "\x7b\x7d" = .ok (.object [])
    ∧ (loadConfiguration sampleJson (storageWith "\x7b\x7d") sampleConfig).ok = true
    ∧ (loadConfiguration sampleJson (storageWith "\x7b\x7d") sampleConfig).config
        = defaultConfig :=
  ⟨rfl, rfl, rfl, by decide, rfl,
    (load_defaults_per_field sampleJson (storageWith "\x7b\x7d") sampleConfig "\x7b\x7d"
      (.object []) rfl rfl rfl (by decide) rfl).1,
    (load_defaults_per_field sampleJson (storageWith "\x7b\x7d") sampleConfig "\x7b\x7d"
      (.object []) rfl rfl rfl (by decide) rfl).2.2.2.2 rfl⟩

/-- Claim C9 as amended: for a body that fails JSON parsing the body handler changes
no field of the configuration, leaves the file system as it was and does not restart;
the failure is printed on the serial console only, and the answer of the request
handler is the same 200 as for any other body. -/
theorem corrupt_body_rejected (lib : ArduinoJson) (fs : Spiffs) (s : Config) (data e : String)
    (h : lib.deserializeJson data = .error e) :
    (postConfig lib fs s data).1.config = s
    ∧ (postConfig lib fs s data).1.fs = fs
    ∧ (postConfig lib fs s data).1.restarted = false
    ∧ (postConfig lib fs s data).1.serial
        = ["Fehler beim Parsen der Konfigurationsdaten: " ++ e]
    ∧ (postConfig lib fs s data).2 = ⟨200, "text/plain", "Konfiguration wird aktualisiert..."⟩ := by
  simp [postConfig, postConfigBody, h, postConfigRequest]

/-- Instance of `corrupt_body_rejected`: the body `{`. -/
theorem corrupt_body_rejected_witness :
    sampleJson.deserializeJson "\x7b" = .error "InvalidInput"
    ∧ (postConfig sampleJson (storageWith "\x7b\x7d") sampleConfig "\x7b").1.config
        = sampleConfig
    ∧ (postConfig sampleJson (storageWith "\x7b\x7d") sampleConfig "\x7b").1.fs.configFile
        = some "\x7b\x7d"
    ∧ (postConfig sampleJson (storageWith "\x7b\x7d") sampleConfig "\x7b").1.restarted = false :=
  ⟨rfl,
    (corrupt_body_rejected sampleJson (storageWith "\x7b\x7d") sampleConfig "\x7b"
      "InvalidInput" rfl).1,
    congrArg Spiffs.configFile
      (corrupt_body_rejected sampleJson (storageWith "\x7b\x7d") sampleConfig "\x7b"
        "InvalidInput" rfl).2.1,
    (corrupt_body_rejected sampleJson (storageWith "\x7b\x7d") sampleConfig "\x7b"
      "InvalidInput" rfl).2.2.1⟩

/-- Claim C9 as stated fails in its last part: for the corrupt body `{` the caller is
answered with status 200, the very answer given for a well-formed body, so no failure
is reported to it. -/
theorem corrupt_body_answer_is_ok :
    sampleJson.deserializeJson "\x7b" = .error "InvalidInput"
    ∧ sampleJson.deserializeJson intervalText = .ok intervalDocument
    ∧ (postConfig sampleJson (storageWith "\x7b\x7d") sampleConfig "\x7b").2.code = 200
    ∧ (postConfig sampleJson (storageWith "\x7b\x7d") sampleConfig "\x7b").2
        = (postConfig sampleJson (storageWith "\x7b\x7d") sampleConfig intervalText).2 := by
  refine ⟨rfl, rfl, rfl, rfl⟩

/-- Claim C10, gating of the main loop. In one pass with `millis()` equal to `now`,
sensors are read exactly when `now - lastReadTime >= readInterval * 1000` in 32 bit
unsigned arithmetic, and the reading is published exactly when it was taken in this
pass, `now - lastReportTime >= reportingInterval * 1000`, and the broker is connected.
When both are due and the broker is down, the reading is taken, nothing is published
and `lastReportTime` becomes `now`, so that a following pass with the broker up
publishes nothing as long as less than a reporting interval has elapsed since. -/
theorem loop_gating (lib : ArduinoJson) (config : Config) (connected : Bool)
    (data : JsonVariant) (now : Nat) (t : Timers) :
    ((loopStep lib config connected data now t).reading = some data ↔
        toUnsignedLong ((now : Int) - t.lastReadTime)
          ≥ toUnsignedLong (config.readInterval * 1000))
    ∧ ((loopStep lib config connected data now t).reading = none ↔
        ¬ toUnsignedLong ((now : Int) - t.lastReadTime)
          ≥ toUnsignedLong (config.readInterval * 1000))
    ∧ ((loopStep lib config connected data now t).published = some data ↔
        (loopStep lib config connected data now t).reading = some data
        ∧ toUnsignedLong ((now : Int) - t.lastReportTime)
            ≥ toUnsignedLong (config.reportingInterval * 1000)
        ∧ connected = true)
    ∧ ((loopStep lib config connected data now t).published = none ↔
        ¬ ((loopStep lib config connected data now t).reading = some data
        ∧ toUnsignedLong ((now : Int) - t.lastReportTime)
            ≥ toUnsignedLong (config.reportingInterval * 1000)
        ∧ connected = true))
    ∧ (toUnsignedLong ((now : Int) - t.lastReadTime)
          ≥ toUnsignedLong (config.readInterval * 1000) →
       toUnsignedLong ((now : Int) - t.lastReportTime)
          ≥ toUnsignedLong (config.reportingInterval * 1000) →
       connected = false →
        (loopStep lib config connected data now t).reading = some data
        ∧ (loopStep lib config connected data now t).published = none
        ∧ (loopStep lib config connected data now t).timers.lastReportTime = now
        ∧ ∀ (data₂ : JsonVariant) (now₂ : Nat),
            toUnsignedLong ((now₂ : Int) - now)
              < toUnsignedLong (config.reportingInterval * 1000) →
            (loopStep lib config true data₂ now₂
              (loopStep lib config connected data now t).timers).published = none) := by
  unfold loopStep
  refine ⟨?_, ?_, ?_, ?_, ?_⟩
  · split_ifs <;> simp_all
  · split_ifs <;> simp_all
  · split_ifs <;> simp_all
  · split_ifs <;> simp_all
  · intro h1 h2 h3
    subst h3
    simp only [h1, h2, if_true]
    refine ⟨by simp, by simp, by simp, ?_⟩
    intro data₂ now₂ hlt
    simp only [Bool.false_eq_true, if_false]
    have : ¬ toUnsignedLong ((now₂ : Int) - now)
              ≥ toUnsignedLong (config.reportingInterval * 1000) := Nat.not_le.mpr hlt
    split_ifs <;> simp_all

/-- Instance of `loop_gating`: defaults (60 s and 300 s), broker down at 300000 ms and
up again at 300100 ms. -/
theorem loop_gating_witness :
    toUnsignedLong ((300000 : Nat) - (0 : Nat)) ≥ toUnsignedLong (defaultConfig.readInterval * 1000)
    ∧ toUnsignedLong ((300000 : Nat) - (0 : Nat))
        ≥ toUnsignedLong (defaultConfig.reportingInterval * 1000)
    ∧ toUnsignedLong ((300100 : Nat) - (300000 : Nat))
        < toUnsignedLong (defaultConfig.reportingInterval * 1000)
    ∧ (loopStep sampleJson defaultConfig false intervalDocument 300000 ⟨0, 0⟩).reading
        = some intervalDocument
    ∧ (loopStep sampleJson defaultConfig false intervalDocument 300000 ⟨0, 0⟩).published = none
    ∧ (loopStep sampleJson defaultConfig false intervalDocument 300000 ⟨0, 0⟩).timers.lastReportTime
        = 300000
    ∧ (loopStep sampleJson defaultConfig true intervalDocument 300100
        (loopStep sampleJson defaultConfig false intervalDocument 300000 ⟨0, 0⟩).timers).published
        = none :=
  ⟨by decide, by decide, by decide,
    ((loop_gating sampleJson defaultConfig false intervalDocument 300000 ⟨0, 0⟩).2.2.2.2
      (by decide) (by decide) rfl).1,
    ((loop_gating sampleJson defaultConfig false intervalDocument 300000 ⟨0, 0⟩).2.2.2.2
      (by decide) (by decide) rfl).2.1,
    ((loop_gating sampleJson defaultConfig false intervalDocument 300000 ⟨0, 0⟩).2.2.2.2
      (by decide) (by decide) rfl).2.2.1,
    ((loop_gating sampleJson defaultConfig false intervalDocument 300000 ⟨0, 0⟩).2.2.2.2
      (by decide) (by decide) rfl).2.2.2 intervalDocument 300100 (by decide)⟩

/-- Claim C11, read then write back is the identity in memory. For every configuration
`s` (its `int` members being 32 bit values), merging the document that the
`GET /api/config` handler builds for `s` into `s` with the `POST /api/config` merge
leaves every field unchanged, the three secrets included: the response blanks them
and the merge skips blank secrets. -/
theorem read_write_back_identity (lib : ArduinoJson) (s : Config) (h : s.intsFit = true) :
    mergeDocument lib (getConfigDocument s) s = s
    ∧ (∀ f : Field, f.read (mergeDocument lib (getConfigDocument s) s) = f.read s)
    ∧ (∀ f : Field, f.isSecret = true →
        fieldOf (getConfigDocument s) f.group f.key = some (.string "")
        ∧ f.read (mergeDocument lib (getConfigDocument s) s) = f.read s) := by
  have key := mergeDocument_getConfigDocument lib s h
  refine ⟨key, ?_, ?_⟩
  · intro f
    rw [key]
  · intro f hs
    refine ⟨?_, by rw [key]⟩
    cases f <;> first | rfl | exact absurd hs (by decide)

/-- Instance of `read_write_back_identity`: the configuration `sampleConfig`, whose WiFi
password `geheim` survives the write-back of its own blanked response. -/
theorem read_write_back_identity_witness :
    sampleConfig.intsFit = true
    ∧ mergeDocument sampleJson (getConfigDocument sampleConfig) sampleConfig = sampleConfig
    ∧ fieldOf (getConfigDocument sampleConfig) "wifi" "password" = some (.string "")
    ∧ Field.wifiPassword.read
        (mergeDocument sampleJson (getConfigDocument sampleConfig) sampleConfig)
        = .string "geheim" :=
  ⟨by decide, (read_write_back_identity sampleJson sampleConfig (by decide)).1,
    ((read_write_back_identity sampleJson sampleConfig (by decide)).2.2 .wifiPassword rfl).1,
    ((read_write_back_identity sampleJson sampleConfig (by decide)).2.2 .wifiPassword rfl).2⟩

end SwissAirDry
